import Mathlib

/-!
Shallow embedding of the Biology Learning backend (src/main.py, src/schemas.py):
a document store with two collections ("chapter" and "quizquestion"), the
response-shaping function `to_str_id`, the HTTP endpoint handlers, the Pydantic
schema validation for quiz questions, and the seed routine.

Documents are association lists of field name to value (Python dicts with
unique keys); values cover exactly the shapes this application stores:
strings, integers, ObjectIds, null, lists of strings, and lists of flat
string-to-string records (the chapter `sections`).
-/

namespace BioBackend

/-- A BSON-ish value, covering the value shapes this application stores. -/
inductive BVal where
  | s : String → BVal
  | i : Int → BVal
  | oid : String → BVal
  | null : BVal
  | arrS : List String → BVal
  | arrD : List (List (String × String)) → BVal
deriving DecidableEq, Repr

/-- A document: a Python dict with string keys (unique, insertion-ordered). -/
abbrev Doc := List (String × BVal)

/-- Python `str(v)` for the values this application converts
(`str(chapter_doc["_id"])` on an ObjectId yields its 24-char hex form). -/
def valToStr : BVal → String
  | .s t => t
  | .i n => toString n
  | .oid h => h
  | .null => "None"
  | .arrS _ => "<list>"
  | .arrD _ => "<list>"

/-- Predicate for `bson.ObjectId(s)`: it accepts a string exactly when the
string is 24 hex characters. -/
def isValidObjectId (s : String) : Bool :=
  s.length == 24 && s.data.all fun c =>
    c.isDigit || ('a' ≤ c && c ≤ 'f') || ('A' ≤ c && c ≤ 'F')

/-- Normalization applied by `bson.ObjectId(s)` to hex input: lower case
(an ObjectId string form is always lower-case hex). -/
def lowerHex (s : String) : String := String.mk (s.data.map Char.toLower)

/-- Removal effect of Python `d.pop(k)` on a dict: drop the key. -/
def eraseField (d : Doc) (k : String) : Doc :=
  d.filter fun p => p.1 ≠ k

/-- Python `d[k] = v` on a dict: replace in place if present, else append. -/
def setField (d : Doc) (k : String) (v : BVal) : Doc :=
  if d.any (fun p => p.1 = k) then
    d.map fun p => if p.1 = k then (k, v) else p
  else
    d ++ [(k, v)]

/-- src/main.py `to_str_id`: if `"_id"` is present, remove it and set
`"id"` to its string form; otherwise return the document unchanged
(`doc is None` is not representable here; `Doc` is always a dict). -/
def to_str_id (d : Doc) : Doc :=
  match d.lookup "_id" with
  | some v => setField (eraseField d "_id") "id" (BVal.s (valToStr v))
  | none => d

/-- The persisted state: the two collections of §6 plus the store's
identifier-assignment state (fresh ObjectIds, modelled as a counter). -/
structure Store where
  chapter : List Doc
  quizquestion : List Doc
  nextId : Nat
deriving DecidableEq, Repr

def hexDigit (n : Nat) : Char :=
  if n < 10 then Char.ofNat (48 + n) else Char.ofNat (87 + n)

/-- A fresh store-assigned ObjectId: the counter as 24 hex digits. -/
def oidOfNat (n : Nat) : String :=
  String.mk ((List.range 24).map fun k => hexDigit (n / 16 ^ (23 - k) % 16))

/-- A document matches a Mongo equality-style filter when every filter field
is present with the given value. -/
def matchesFilter (d : Doc) (f : List (String × BVal)) : Bool :=
  f.all fun kv => d.lookup kv.1 == some kv.2

/-- pymongo `collection.find_one(filter)`: first matching document, if any. -/
def findOne (docs : List Doc) (f : List (String × BVal)) : Option Doc :=
  docs.find? fun d => matchesFilter d f

/-- pymongo `collection.count_documents(filter)`. -/
def countDocs (docs : List Doc) (f : List (String × BVal)) : Nat :=
  (docs.filter fun d => matchesFilter d f).length

/-- Append a document to the named collection (the store holds exactly the
two collections of §6). -/
def addToColl (st : Store) (coll : String) (d : Doc) : Store :=
  if coll == "chapter" then { st with chapter := st.chapter ++ [d] }
  else if coll == "quizquestion" then { st with quizquestion := st.quizquestion ++ [d] }
  else st

/-- Modelled from the spec: `create(collection, entity) -> id` of the Document
Store Gateway (database.py, a repository file not included under src/):
serializes the entity, inserts it with a store-assigned identifier, and
returns the new identifier as an opaque string. -/
def create_document (st : Store) (coll : String) (d : Doc) : String × Store :=
  let newId := oidOfNat st.nextId
  (newId, addToColl { st with nextId := st.nextId + 1 } coll (("_id", BVal.oid newId) :: d))

/-- Modelled from the spec: `list(collection, filter, limit)` of the Document
Store Gateway (database.py, not included under src/): documents matching an
equality-style filter, optionally capped to `limit` entries; no ordering
guarantee beyond the stored sequence. -/
def get_documents (st : Store) (coll : String) (f : List (String × BVal))
    (limit : Option Nat) : List Doc :=
  let docs := if coll == "chapter" then st.chapter
              else if coll == "quizquestion" then st.quizquestion
              else []
  let m := docs.filter fun d => matchesFilter d f
  match limit with
  | none => m
  | some n => m.take n

/-- An HTTP outcome: either a success payload or an `HTTPException`
(status code, detail string). -/
abbrev HttpResult (α : Type) := Except (Nat × String) α

instance {ε α : Type} [DecidableEq ε] [DecidableEq α] : DecidableEq (Except ε α) := fun x y =>
  match x, y with
  | .ok a, .ok b =>
    if h : a = b then isTrue (by rw [h]) else isFalse (by intro hh; cases hh; exact h rfl)
  | .error a, .error b =>
    if h : a = b then isTrue (by rw [h]) else isFalse (by intro hh; cases hh; exact h rfl)
  | .ok _, .error _ => isFalse (by intro hh; cases hh)
  | .error _, .ok _ => isFalse (by intro hh; cases hh)

/-- src/schemas.py `QuizQuestion` (validated shape). -/
structure QuizQuestion where
  chapter_id : String
  question : String
  options : List String
  correct_index : Int
  explanation : String
  difficulty : String
deriving DecidableEq, Repr

/-- Pydantic validation of a `QuizQuestion` payload: every required field
present (`none` = absent), `options` with `min_items=2`, `correct_index`
with `ge=0`, `difficulty` defaulting to `"OSN-N"`. Purely structural:
no cross-field check of `correct_index` against `options`. -/
def validateQuizQuestion (chapter_id question : Option String)
    (options : Option (List String)) (correct_index : Option Int)
    (explanation difficulty : Option String) : Option QuizQuestion :=
  match chapter_id, question, options, correct_index, explanation with
  | some c, some q, some os, some ci, some ex =>
    if 2 ≤ os.length then
      if 0 ≤ ci then
        some ⟨c, q, os, ci, ex, difficulty.getD "OSN-N"⟩
      else none
    else none
  | _, _, _, _, _ => none

/-- Serialization `q.model_dump()` of a validated quiz question. -/
def quizToDoc (q : QuizQuestion) : Doc :=
  [("chapter_id", BVal.s q.chapter_id), ("question", BVal.s q.question),
   ("options", BVal.arrS q.options), ("correct_index", BVal.i q.correct_index),
   ("explanation", BVal.s q.explanation), ("difficulty", BVal.s q.difficulty)]

/-- Sort key of `list_chapters`: Python `x.get("number", 0)`. Meaningful for
documents whose `number` field is an integer or missing — with mixed value
types Python's sort itself would raise — so the theorems below assume
`numberIntOrMissing`. -/
def numKey (d : Doc) : Int :=
  match d.lookup "number" with
  | some (BVal.i n) => n
  | _ => 0

/-- The `number` field, when present, is an integer (true of every document
this system can store: the schema validates `number` as `int`). -/
def numberIntOrMissing (d : Doc) : Bool :=
  match d.lookup "number" with
  | some (BVal.i _) => true
  | some _ => false
  | none => true

/-- src/main.py `list_chapters` (`GET /api/chapters`): fetch all chapter
documents, stable-sort ascending by `number` (missing defaulting to 0),
shape each with `to_str_id`. -/
def list_chapters (st : Store) : List Doc :=
  let docs := get_documents st "chapter" [] none
  (docs.mergeSort fun a b => numKey a ≤ numKey b).map to_str_id

/-- src/main.py `get_chapter` (`GET /api/chapters/{chapter_id}`). The whole
store access sits in a `try` whose `except Exception` answers 400: a
malformed identifier (`ObjectId(chapter_id)` raises) and an unavailable
store (`db["chapter"]` on `None` raises) both land there. `ObjectId`
normalizes hex input to lower case. -/
def get_chapter (db : Option Store) (chapter_id : String) : HttpResult Doc :=
  match db with
  | none => .error (400, "Invalid chapter id")
  | some st =>
    if isValidObjectId chapter_id then
      match findOne st.chapter [("_id", BVal.oid (lowerHex chapter_id))] with
      | none => .error (404, "Chapter not found")
      | some doc => .ok (to_str_id doc)
    else .error (400, "Invalid chapter id")

/-- Body of `POST /api/chapters/{chapter_id}/quizzes` (already
schema-validated by the framework layer). -/
structure QuizCreate where
  chapter_id : String
  questions : List QuizQuestion
deriving Repr

/-- The insert loop shared by `add_quiz_questions` and the seed routine:
`create_document("quizquestion", q)` for each payload in order, collecting
the new identifiers. -/
def insertLoop (st : Store) : List Doc → List String × Store
  | [] => ([], st)
  | d :: ds =>
    let p := create_document st "quizquestion" d
    let r := insertLoop p.2 ds
    (p.1 :: r.1, r.2)

/-- src/main.py `add_quiz_questions` (`POST /api/chapters/{chapter_id}/quizzes`):
400 on path/body mismatch, 400 on a malformed identifier or unavailable store
(the catch-all `except`), 404 when the chapter is absent, otherwise insert
every question and report the count and identifiers. Returns the resulting
store next to the HTTP outcome. -/
def add_quiz_questions (db : Option Store) (chapter_id : String)
    (payload : QuizCreate) : HttpResult (Nat × List String) × Option Store :=
  if chapter_id ≠ payload.chapter_id then
    (.error (400, "chapter_id mismatch"), db)
  else
    match db with
    | none => (.error (400, "Invalid chapter id"), none)
    | some st =>
      if isValidObjectId chapter_id then
        match findOne st.chapter [("_id", BVal.oid (lowerHex chapter_id))] with
        | none => (.error (404, "Chapter not found"), some st)
        | some _ =>
          let r := insertLoop st (payload.questions.map quizToDoc)
          (.ok (r.1.length, r.1), some r.2)
      else (.error (400, "Invalid chapter id"), some st)

/-- The embedded literal sample-chapter payload of `seed_sample`
(src/main.py lines 122-148), serialized in schema field order. -/
def sampleChapter : Doc :=
  [("number", BVal.i 1),
   ("title", BVal.s "Tema Besar Biologi & Penyelidikan Ilmiah"),
   ("summary", BVal.s
     ("Biologi mempelajari kehidupan dari skala molekul hingga biosfer. Pola umum yang menyatukan bidang ini meliputi organisasi berjenjang, hubungan struktur–fungsi, aliran energi dan daur materi, regulasi melalui umpan balik, informasi genetik, evolusi sebagai penjelas keberagaman, serta metode ilmiah sebagai cara mendapatkan pengetahuan yang bisa diuji. Ringkasan ini merangkum kerangka berpikir untuk memahami fenomena hayati dan cara ilmuwan merumuskan pertanyaan, hipotesis, eksperimen, hingga penarikan kesimpulan yang dapat direplikasi.")),
   ("objectives", BVal.arrS
     ["Menjelaskan hierarki organisasi kehidupan dari molekul hingga biosfer",
      "Membedakan hipotesis dan teori ilmiah serta peran prediksi",
      "Menguraikan aliran energi dan daur materi dalam sistem biologis",
      "Menjelaskan mekanisme umpan balik negatif dan positif",
      "Menunjukkan bagaimana evolusi menyatukan dan menjelaskan keanekaragaman hayati"]),
   ("reference", BVal.s "Campbell Biology ed.11, Bab pengantar (rujukan konsep, tanpa kutipan teks)"),
   ("sections", BVal.arrD
     [[("title", "Hierarki Organisasi"),
       ("content", "Tingkat organisasi: molekul → organel → sel → jaringan → organ → sistem organ → organisme → populasi → komunitas → ekosistem → biosfer.")],
      [("title", "Struktur–Fungsi"),
       ("content", "Bentuk suatu struktur biologis membatasi dan memungkinkan fungsinya, dari lipatan protein hingga bentuk paruh burung.")],
      [("title", "Energi & Materi"),
       ("content", "Energi mengalir (umumnya dari cahaya → kimia → panas), materi berdaur melalui interaksi biotik–abiotik.")],
      [("title", "Informasi Genetik"),
       ("content", "DNA menyimpan informasi; ekspresi gen menghubungkan genotipe dan fenotipe; regulasi mengatur waktu/tempat ekspresi.")],
      [("title", "Regulasi & Homeostasis"),
       ("content", "Umpan balik negatif menstabilkan, umpan balik positif memperkuat perubahan hingga tercapai peristiwa spesifik.")],
      [("title", "Metode Ilmiah"),
       ("content", "Observasi → pertanyaan → hipotesis → prediksi → uji/eksperimen → analisis → kesimpulan → replikasi/peer review.")],
      [("title", "Evolusi"),
       ("content", "Seleksi alam menjelaskan adaptasi; hubungan kekerabatan direkonstruksi melalui bukti komparatif dan molekuler.")]])]

/-- The embedded literal candidate-question list of `seed_sample`
(src/main.py lines 160-447), with the chapter identifier substituted
for `cid`. Note: it holds 22 entries, not 20. -/
def seedQuestions (cid : String) : List Doc :=
  [[("chapter_id", BVal.s cid),
    ("question", BVal.s "Manakah urutan hierarki organisasi kehidupan yang tepat dari kecil ke besar?"),
    ("options", BVal.arrS
      ["Organel → sel → jaringan → organ → organisme",
       "Molekul → organel → sel → jaringan → organ",
       "Sel → molekul → organel → jaringan → organ",
       "Molekul → sel → organel → jaringan → organ"]),
    ("correct_index", BVal.i 1),
    ("explanation", BVal.s "Urutan benar: molekul → organel → sel → jaringan → organ (kemudian sistem organ → organisme → populasi → komunitas → ekosistem → biosfer)."),
    ("difficulty", BVal.s "OSN-N")],
   [("chapter_id", BVal.s cid),
    ("question", BVal.s "Dalam sistem biologis, energi umumnya masuk sebagai … dan keluar sebagai …"),
    ("options", BVal.arrS
      ["Bahan kimia; kalor",
       "Cahaya; kalor",
       "Kalor; cahaya",
       "Elektron; proton"]),
    ("correct_index", BVal.i 1),
    ("explanation", BVal.s "Energi masuk terutama sebagai cahaya (pada ekosistem) dan diubah ke energi kimia; pada akhirnya hilang sebagai kalor."),
    ("difficulty", BVal.s "OSN-N")],
   [("chapter_id", BVal.s cid),
    ("question", BVal.s "Pernyataan yang tepat tentang hipotesis dan teori ilmiah adalah …"),
    ("options", BVal.arrS
      ["Teori adalah dugaan awal, hipotesis adalah hukum alam",
       "Hipotesis adalah penjelasan sementara yang dapat diuji; teori adalah kerangka penjelas luas dengan dukungan bukti kuat",
       "Teori tidak dapat direvisi sementara hipotesis dapat",
       "Hipotesis dan teori setara dan saling menggantikan"]),
    ("correct_index", BVal.i 1),
    ("explanation", BVal.s "Hipotesis: pernyataan penjelas sementara yang dapat diuji melalui prediksi. Teori: sintesis penjelasan luas, konsisten, banyak bukti, tetap dapat direvisi."),
    ("difficulty", BVal.s "OSN-N")],
   [("chapter_id", BVal.s cid),
    ("question", BVal.s "Contoh umpan balik negatif dalam fisiologi adalah …"),
    ("options", BVal.arrS
      ["Kontraksi uterus yang dipicu oksitosin saat persalinan",
       "Pembekuan darah yang semakin cepat saat cedera",
       "Pengaturan gula darah oleh insulin–glukagon",
       "Letupan potensial aksi pada neuron"]),
    ("correct_index", BVal.i 2),
    ("explanation", BVal.s "Insulin menurunkan glukosa ketika tinggi; glukagon menaikkan saat rendah → menuju kestabilan (homeostasis), ciri umpan balik negatif."),
    ("difficulty", BVal.s "OSN-N")],
   [("chapter_id", BVal.s cid),
    ("question", BVal.s "Manakah pasangan struktur–fungsi yang PALING tepat?"),
    ("options", BVal.arrS
      ["Dinding sel tumbuhan tipis → mencegah tekanan turgor",
       "Mikrovili usus memperkecil luas permukaan untuk memperlambat absorbsi",
       "Lipatan membran mitokondria (krista) memperluas area untuk reaksi respirasi",
       "Hemoglobin berbentuk bola halus agar tidak mengikat O2"]),
    ("correct_index", BVal.i 2),
    ("explanation", BVal.s "Krista memperbesar luas permukaan membran dalam mitokondria, meningkatkan kapasitas rantai transpor elektron dan kemiosmosis."),
    ("difficulty", BVal.s "OSN-N")],
   [("chapter_id", BVal.s cid),
    ("question", BVal.s "Pernyataan yang BENAR tentang informasi genetik adalah …"),
    ("options", BVal.arrS
      ["DNA adalah satu-satunya molekul informasi di semua makhluk hidup",
       "Urutan nukleotida pada DNA menyandi urutan asam amino protein",
       "Semua gen selalu diekspresikan pada setiap sel suatu organisme",
       "RNA tidak berperan dalam penerjemahan informasi"]),
    ("correct_index", BVal.i 1),
    ("explanation", BVal.s "Kodon pada mRNA berasal dari transkripsi DNA dan menentukan urutan asam amino; ekspresi gen diatur ruang–waktu; beberapa virus ber-RNA."),
    ("difficulty", BVal.s "OSN-N")],
   [("chapter_id", BVal.s cid),
    ("question", BVal.s "Argumen inti evolusi yang menjelaskan adaptasi adalah …"),
    ("options", BVal.arrS
      ["Kebutuhan organisme memicu perubahan genetik terarah",
       "Seleksi alam bertindak atas variasi yang sudah ada sehingga frekuensi alel berubah",
       "Mutasi selalu menguntungkan sehingga terseleksi",
       "Evolusi terjadi demi kesempurnaan individu"]),
    ("correct_index", BVal.i 1),
    ("explanation", BVal.s "Seleksi alam bekerja pada variasi fenotip/genetik yang telah ada; lingkungan menyaring kombinasi yang meningkatkan keberhasilan reproduktif."),
    ("difficulty", BVal.s "OSN-N")],
   [("chapter_id", BVal.s cid),
    ("question", BVal.s "Dalam eksperimen, fungsi kontrol negatif adalah …"),
    ("options", BVal.arrS
      ["Membuat variabel bebas lebih kuat",
       "Menunjukkan hasil yang diharapkan bila perlakuan efektif",
       "Menunjukkan hasil dasar bila tidak ada perlakuan, untuk pembanding",
       "Menggandakan ukuran sampel"]),
    ("correct_index", BVal.i 2),
    ("explanation", BVal.s "Kontrol negatif tidak menerima perlakuan sehingga mengungkap nilai dasar/artefak; kontrol positif menerima perlakuan yang pasti memberi efek."),
    ("difficulty", BVal.s "OSN-N")],
   [("chapter_id", BVal.s cid),
    ("question", BVal.s "Variabel yang harus dikendalikan (controlled variables) adalah …"),
    ("options", BVal.arrS
      ["Variabel bebas yang dimanipulasi",
       "Variabel respon yang diukur",
       "Faktor lain yang dapat memengaruhi respon dan harus dijaga konstan",
       "Variabel yang tidak dapat diukur"]),
    ("correct_index", BVal.i 2),
    ("explanation", BVal.s "Variabel terkendali dijaga sama di semua kelompok agar perubahan pada variabel terikat dapat diatribusikan ke variabel bebas."),
    ("difficulty", BVal.s "OSN-N")],
   [("chapter_id", BVal.s cid),
    ("question", BVal.s "Manakah pernyataan yang PALING sesuai tentang aliran energi dan daur materi?"),
    ("options", BVal.arrS
      ["Energi dan materi sama-sama berdaur",
       "Energi berdaur, materi mengalir",
       "Energi mengalir satu arah, materi berdaur",
       "Keduanya mengalir satu arah"]),
    ("correct_index", BVal.i 2),
    ("explanation", BVal.s "Energi masuk terutama sebagai cahaya dan berakhir sebagai kalor (tidak berdaur), sedangkan atom unsur berpindah antar kompartemen dan berdaur."),
    ("difficulty", BVal.s "OSN-N")],
   [("chapter_id", BVal.s cid),
    ("question", BVal.s "Pernyataan benar tentang pendekatan reduksionisme dan sistem adalah …"),
    ("options", BVal.arrS
      ["Reduksionisme tidak berguna dalam biologi modern",
       "Pendekatan sistem menolak data molekuler",
       "Reduksionisme memecah sistem menjadi bagian; biologi sistem memetakan interaksi bagian-bagian",
       "Keduanya identik"]),
    ("correct_index", BVal.i 2),
    ("explanation", BVal.s "Reduksionisme mengurai komponen untuk memahami mekanisme; biologi sistem mensintesis kembali interaksi untuk memodelkan perilaku emergen."),
    ("difficulty", BVal.s "OSN-N")],
   [("chapter_id", BVal.s cid),
    ("question", BVal.s "Sebuah hipotesis dinyatakan kuat jika …"),
    ("options", BVal.arrS
      ["Mampu menjelaskan semua fenomena alam",
       "Spesifik, menghasilkan prediksi teruji, dan falsifiabel",
       "Didukung oleh satu percobaan yang berhasil",
       "Tidak dapat dibantah"]),
    ("correct_index", BVal.i 1),
    ("explanation", BVal.s "Hipotesis harus dapat menghasilkan prediksi yang bisa salah bila bertentangan dengan data (falsifiabel) dan cukup spesifik untuk diuji."),
    ("difficulty", BVal.s "OSN-N")],
   [("chapter_id", BVal.s cid),
    ("question", BVal.s "Contoh terbaik umpan balik positif adalah …"),
    ("options", BVal.arrS
      ["Termoregulasi melalui keringat",
       "Pembekuan darah mempercepat aktivasi faktor pembeku",
       "Pengaturan pH darah oleh sistem penyangga",
       "Pengendalian glukosa darah oleh insulin"]),
    ("correct_index", BVal.i 1),
    ("explanation", BVal.s "Dalam koagulasi, produk antara mengaktifkan lebih banyak faktor berikutnya → amplifikasi hingga bekuan terbentuk (batas proses jelas)."),
    ("difficulty", BVal.s "OSN-N")],
   [("chapter_id", BVal.s cid),
    ("question", BVal.s "Manakah yang BUKAN bukti kuat bagi evolusi?"),
    ("options", BVal.arrS
      ["Fosil transisi",
       "Homologi struktur dan molekuler",
       "Variasi acak hasil sampling kecil",
       "Distribusi biogeografis konsisten"]),
    ("correct_index", BVal.i 2),
    ("explanation", BVal.s "Variasi acak pada sampel kecil (drift) adalah mekanisme mikro, bukan bukti komparatif makro seperti fosil, homologi, dan biogeografi."),
    ("difficulty", BVal.s "OSN-N")],
   [("chapter_id", BVal.s cid),
    ("question", BVal.s "Dalam rancangan eksperimen, replikasi diperlukan untuk …"),
    ("options", BVal.arrS
      ["Menggantikan kontrol",
       "Mengurangi pengaruh kebetulan dan memperkirakan variabilitas",
       "Memperbanyak variabel",
       "Mendapatkan nilai p = 0"]),
    ("correct_index", BVal.i 1),
    ("explanation", BVal.s "Replikasi memungkinkan estimasi varians dan meningkatkan daya statistik, bukan untuk menjamin hasil tertentu atau mengganti kontrol."),
    ("difficulty", BVal.s "OSN-N")],
   [("chapter_id", BVal.s cid),
    ("question", BVal.s "Pernyataan yang tepat tentang pohon filogenetik …"),
    ("options", BVal.arrS
      ["Selalu menunjukkan urutan kronologis kemunculan spesies",
       "Merepresentasikan hipotesis hubungan kekerabatan berdasarkan bukti",
       "Menunjukkan tingkat kemajuan suatu spesies",
       "Tidak dapat berubah ketika data baru muncul"]),
    ("correct_index", BVal.i 1),
    ("explanation", BVal.s "Pohon filogenetik adalah hipotesis yang dapat direvisi; tidak menyiratkan kemajuan linear, melainkan kekerabatan berdasarkan data morfologi/molekuler."),
    ("difficulty", BVal.s "OSN-N")],
   [("chapter_id", BVal.s cid),
    ("question", BVal.s "Sebuah model ilmiah berguna jika …"),
    ("options", BVal.arrS
      ["Indah dan kompleks",
       "Mampu menghasilkan prediksi yang cocok dengan data",
       "Selalu benar di semua konteks",
       "Tidak memerlukan asumsi"]),
    ("correct_index", BVal.i 1),
    ("explanation", BVal.s "Nilai model diukur dari kekuatan prediksi dan kesesuaiannya dengan pengamatan dalam batas asumsi yang dinyatakan."),
    ("difficulty", BVal.s "OSN-N")],
   [("chapter_id", BVal.s cid),
    ("question", BVal.s "Pada tingkat sel, contoh keterkaitan struktur–fungsi adalah …"),
    ("options", BVal.arrS
      ["Membran plasma cair sehingga tidak selektif",
       "Mikrotubulus yang kaku memungkinkan transport vesikel terarah",
       "Ribosom besar agar tidak efisien",
       "Nukleus tanpa pori untuk melindungi DNA"]),
    ("correct_index", BVal.i 1),
    ("explanation", BVal.s "Mikrotubulus menyediakan rel untuk motor protein (kinesin/dinein) sehingga vesikel bergerak terarah; membran tetap selektif meski cair."),
    ("difficulty", BVal.s "OSN-N")],
   [("chapter_id", BVal.s cid),
    ("question", BVal.s "Pernyataan benar tentang data dan inferensi …"),
    ("options", BVal.arrS
      ["Data adalah interpretasi; inferensi adalah pengukuran",
       "Data adalah hasil pengamatan/pengukuran; inferensi adalah kesimpulan yang ditarik dari data",
       "Inferensi selalu objektif",
       "Data hanya valid jika mendukung hipotesis"]),
    ("correct_index", BVal.i 1),
    ("explanation", BVal.s "Data dapat bersifat kualitatif/kuantitatif; inferensi menautkan data dengan hipotesis/teori; keduanya bisa bias bila metodologi lemah."),
    ("difficulty", BVal.s "OSN-N")],
   [("chapter_id", BVal.s cid),
    ("question", BVal.s "Dalam kerangka homeostasis, titik setel (set point) adalah …"),
    ("options", BVal.arrS
      ["Nilai referensi yang ditargetkan oleh sistem pengatur",
       "Nilai variabel bebas",
       "Hasil pengukuran acak",
       "Batas maksimum biologis"]),
    ("correct_index", BVal.i 0),
    ("explanation", BVal.s "Sistem umpan balik negatif berupaya mempertahankan variabel (misal suhu tubuh) dekat titik setel melalui sensor–integrator–efektor."),
    ("difficulty", BVal.s "OSN-N")],
   [("chapter_id", BVal.s cid),
    ("question", BVal.s "Konsep ‘emergent properties’ berarti …"),
    ("options", BVal.arrS
      ["Sifat bagian sama persis dengan sifat keseluruhan",
       "Sifat baru muncul pada tingkat organisasi lebih tinggi akibat interaksi komponen",
       "Sifat menurun saat tingkat organisasi meningkat",
       "Sifat hanya ada pada tingkat molekuler"]),
    ("correct_index", BVal.i 1),
    ("explanation", BVal.s "Interaksi komponen menghasilkan perilaku/sifat yang tidak tampak pada bagian terpisah, misalnya kesadaran dari jaringan saraf."),
    ("difficulty", BVal.s "OSN-N")],
   [("chapter_id", BVal.s cid),
    ("question", BVal.s "Pemilihan acak (randomization) dalam eksperimen bertujuan untuk …"),
    ("options", BVal.arrS
      ["Memastikan semua kelompok identik",
       "Mengurangi bias sistematis dalam penempatan perlakuan",
       "Meningkatkan variabel pengganggu",
       "Menghilangkan kebutuhan kontrol"]),
    ("correct_index", BVal.i 1),
    ("explanation", BVal.s "Randomisasi menyebarkan faktor perancu tak terukur secara merata antar kelompok sehingga bias sistematis berkurang."),
    ("difficulty", BVal.s "OSN-N")]]

/-- The report dict returned by `seed_sample`. -/
structure SeedResp where
  chapter_id : String
  chapter_number : Option BVal
  chapter_title : Option BVal
  existing_questions : Nat
  inserted : Nat
  total_now : Nat
deriving DecidableEq, Repr

/-- The part of `seed_sample` from line 152 on, given the chapter document
in hand: count the questions referencing the chapter, and if fewer than 20,
insert the missing number from the front of the candidate list. A missing
`"_id"` (impossible for store-created documents) would raise a `KeyError`,
an unhandled exception, hence HTTP 500. -/
def seed_core (st : Store) (ch : Doc) : HttpResult (SeedResp × Store) :=
  match ch.lookup "_id" with
  | none => .error (500, "Internal Server Error")
  | some v =>
    let existing_q := countDocs st.quizquestion [("chapter_id", BVal.s (valToStr v))]
    if existing_q < 20 then
      let cid := valToStr v
      let questions := seedQuestions cid
      let to_insert := 20 - existing_q
      if 0 < to_insert then
        let r := insertLoop st (questions.take to_insert)
        .ok ({ chapter_id := valToStr v,
               chapter_number := ch.lookup "number",
               chapter_title := ch.lookup "title",
               existing_questions := existing_q,
               inserted := r.1.length,
               total_now := existing_q + r.1.length }, r.2)
      else
        .ok ({ chapter_id := valToStr v,
               chapter_number := ch.lookup "number",
               chapter_title := ch.lookup "title",
               existing_questions := existing_q,
               inserted := 0,
               total_now := existing_q }, st)
    else
      .ok ({ chapter_id := valToStr v,
             chapter_number := ch.lookup "number",
             chapter_title := ch.lookup "title",
             existing_questions := existing_q,
             inserted := 0,
             total_now := existing_q }, st)

/-- src/main.py `seed_sample` (`POST /api/seed/sample`): 500 when the store
is unavailable; otherwise reuse the chapter with `number == 1` or insert the
sample chapter, then top its question set up to 20. Returns the resulting
store next to the HTTP outcome. -/
def seed_sample (db : Option Store) : HttpResult (SeedResp × Store) :=
  match db with
  | none => .error (500, "Database not available")
  | some st =>
    match findOne st.chapter [("number", BVal.i 1)] with
    | some ch => seed_core st ch
    | none =>
      let p := create_document st "chapter" sampleChapter
      match findOne p.2.chapter [("_id", BVal.oid (lowerHex p.1))] with
      | none => .error (500, "Internal Server Error")
      | some ch => seed_core p.2 ch

/-- The documents produced by a run of the insert loop starting at
identifier counter `n`: each payload prefixed with its fresh `"_id"`. -/
def tagFrom (n : Nat) : List Doc → List Doc
  | [] => []
  | d :: ds => (("_id", BVal.oid (oidOfNat n)) :: d) :: tagFrom (n + 1) ds

/-- The identifiers handed out by a run of the insert loop starting at
counter `n`, for `len` inserts. -/
def idsFrom (n : Nat) : Nat → List String
  | 0 => []
  | len + 1 => oidOfNat n :: idsFrom (n + 1) len

/-- The HTTP status code of an outcome (200 on success). -/
def statusOf {α : Type} : HttpResult α → Nat
  | .ok _ => 200
  | .error e => e.1

/-- The empty store. -/
def emptyStore : Store := ⟨[], [], 0⟩

/-- The store after one seed call on the empty store. -/
def seededStore : Store :=
  match seed_sample (some emptyStore) with
  | .ok p => p.2
  | .error _ => emptyStore

/-- The report of one seed call on the empty store. -/
def seededResp : SeedResp :=
  match seed_sample (some emptyStore) with
  | .ok p => p.1
  | .error _ => ⟨"", none, none, 0, 0, 0⟩

/-- A well-formed 24-hex-char identifier used in concrete test fixtures. -/
def fixOid : String := "0123456789abcdef01234567"

/-- Fixture: a stored sample chapter document carrying `fixOid`. -/
def wChapterDoc : Doc :=
  [("_id", BVal.oid fixOid), ("number", BVal.i 1), ("title", BVal.s "Bab 1")]

/-- Fixture: a store holding the sample chapter and 5 questions for it. -/
def wStoreFive : Store :=
  ⟨[wChapterDoc], List.replicate 5 [("chapter_id", BVal.s fixOid)], 7⟩

/-- Fixture: a store whose only chapter has a different identifier. -/
def wStoreOther : Store :=
  ⟨[[("_id", BVal.oid "ffffffffffffffffffffffff"), ("number", BVal.i 2)]], [], 0⟩

/-- Fixture: a valid quiz-question payload. -/
def wQuiz : QuizQuestion := ⟨fixOid, "Apa?", ["a", "b"], 0, "sebab", "OSN-N"⟩

/-- Fixture: chapters stored out of order, one lacking a `number` field. -/
def wStoreChapters : Store :=
  ⟨[[("_id", BVal.oid "aaaaaaaaaaaaaaaaaaaaaaaa"), ("number", BVal.i 3)],
    [("_id", BVal.oid "bbbbbbbbbbbbbbbbbbbbbbbb")],
    [("_id", BVal.oid "cccccccccccccccccccccccc"), ("number", BVal.i 1)]], [], 0⟩

end BioBackend

namespace BioBackend

theorem lookup_eraseField (d : Doc) (k k' : String) (h : k' ≠ k) :
    (eraseField d k).lookup k' = d.lookup k' := by
  induction d with
  | nil => rfl
  | cons p ds ih =>
    obtain ⟨a, v⟩ := p
    by_cases hk'a : k' = a
    · have hak : ¬ a = k := fun hh => h (hk'a.trans hh)
      simp [eraseField, List.filter_cons, hak, List.lookup_cons, hk'a]
    · by_cases hak : a = k
      · simpa [eraseField, List.filter_cons, hak, List.lookup_cons,
          beq_eq_false_iff_ne.mpr hk'a, beq_eq_false_iff_ne.mpr h] using ih
      · simpa [eraseField, List.filter_cons, hak, List.lookup_cons,
          beq_eq_false_iff_ne.mpr hk'a] using ih

theorem lookup_eraseField_self (d : Doc) (k : String) :
    (eraseField d k).lookup k = none := by
  induction d with
  | nil => rfl
  | cons p ds ih =>
    obtain ⟨a, v⟩ := p
    by_cases hak : a = k
    · simpa [eraseField, List.filter_cons, hak] using ih
    · simpa [eraseField, List.filter_cons, hak, List.lookup_cons,
        beq_eq_false_iff_ne.mpr (Ne.symm hak)] using ih

theorem lookup_map_replace_ne (ds : List (String × BVal)) (k k' : String) (v : BVal)
    (h : k' ≠ k) :
    (ds.map fun p => if p.1 = k then (k, v) else p).lookup k' = ds.lookup k' := by
  induction ds with
  | nil => rfl
  | cons p ds ih =>
    obtain ⟨a, v'⟩ := p
    by_cases hak : a = k
    · have hk'a : ¬ k' = a := fun hh => h (hh.trans hak)
      simp [List.lookup_cons, hak, beq_eq_false_iff_ne.mpr h,
        beq_eq_false_iff_ne.mpr hk'a, ih]
    · by_cases hk'a : k' = a
      · simp [List.lookup_cons, hak, hk'a]
      · simp [List.lookup_cons, hak, beq_eq_false_iff_ne.mpr hk'a, ih]

theorem lookup_map_replace_self (ds : List (String × BVal)) (k : String) (v : BVal)
    (hany : (ds.any fun p => decide (p.1 = k)) = true) :
    (ds.map fun p => if p.1 = k then (k, v) else p).lookup k = some v := by
  induction ds with
  | nil => simp at hany
  | cons p ds ih =>
    obtain ⟨a, v'⟩ := p
    by_cases hak : a = k
    · simp [List.lookup_cons, hak]
    · simp only [List.any_cons, Bool.or_eq_true, decide_eq_true_eq] at hany
      rcases hany with hh | hany
      · exact absurd hh hak
      · simpa [List.map_cons, hak, List.lookup_cons,
          beq_eq_false_iff_ne.mpr (Ne.symm hak)] using ih hany

theorem lookup_append_single_self (ds : List (String × BVal)) (k : String) (v : BVal)
    (hnone : (ds.any fun p => decide (p.1 = k)) = false) :
    (ds ++ [(k, v)]).lookup k = some v := by
  induction ds with
  | nil => simp [List.lookup_cons]
  | cons p ds ih =>
    obtain ⟨a, v'⟩ := p
    simp only [List.any_cons, Bool.or_eq_false_iff, decide_eq_false_iff_not] at hnone
    have hka : ¬ k = a := fun hh => hnone.1 hh.symm
    simp only [List.cons_append, List.lookup_cons, beq_eq_false_iff_ne.mpr hka]
    exact ih (by simpa using hnone.2)

theorem lookup_append_single_ne (ds : List (String × BVal)) (k k' : String) (v : BVal)
    (h : k' ≠ k) :
    (ds ++ [(k, v)]).lookup k' = ds.lookup k' := by
  induction ds with
  | nil => simp [List.lookup_cons, beq_eq_false_iff_ne.mpr h]
  | cons p ds ih =>
    obtain ⟨a, v'⟩ := p
    by_cases hk'a : k' = a
    · simp [List.lookup_cons, hk'a]
    · simp [List.lookup_cons, beq_eq_false_iff_ne.mpr hk'a, ih]

theorem lookup_setField_self (d : Doc) (k : String) (v : BVal) :
    (setField d k v).lookup k = some v := by
  unfold setField
  by_cases hany : (d.any fun p => decide (p.1 = k)) = true
  · rw [if_pos hany]; exact lookup_map_replace_self d k v hany
  · rw [if_neg hany]
    refine lookup_append_single_self d k v ?_
    simp only [Bool.not_eq_true] at hany
    exact hany

theorem lookup_setField_ne (d : Doc) (k k' : String) (v : BVal) (h : k' ≠ k) :
    (setField d k v).lookup k' = d.lookup k' := by
  unfold setField
  by_cases hany : (d.any fun p => decide (p.1 = k)) = true
  · rw [if_pos hany]; exact lookup_map_replace_ne d k k' v h
  · rw [if_neg hany]; exact lookup_append_single_ne d k k' v h

theorem lookup_to_str_id (d : Doc) (k : String) (h1 : k ≠ "_id") (h2 : k ≠ "id") :
    (to_str_id d).lookup k = d.lookup k := by
  unfold to_str_id
  cases hid : d.lookup "_id" with
  | none => rfl
  | some v =>
    rw [lookup_setField_ne _ _ _ _ h2, lookup_eraseField _ _ _ h1]

theorem to_str_id_lookup_id (d : Doc) (h : d.lookup "id" = none) :
    (to_str_id d).lookup "id" = (d.lookup "_id").map fun v => BVal.s (valToStr v) := by
  unfold to_str_id
  cases hid : d.lookup "_id" with
  | none => simpa using h
  | some v => rw [lookup_setField_self]; rfl

theorem to_str_id_lookup_underscore (d : Doc) :
    (to_str_id d).lookup "_id" = none := by
  unfold to_str_id
  cases hid : d.lookup "_id" with
  | none => exact hid
  | some v =>
    rw [lookup_setField_ne _ _ _ _ (by decide), lookup_eraseField_self]

end BioBackend

namespace BioBackend

theorem insertLoop_eq : ∀ (ds : List Doc) (st : Store),
    insertLoop st ds =
      (idsFrom st.nextId ds.length,
       { st with quizquestion := st.quizquestion ++ tagFrom st.nextId ds,
                 nextId := st.nextId + ds.length }) := by
  intro ds
  induction ds with
  | nil =>
    intro st
    simp [insertLoop, idsFrom, tagFrom]
  | cons d ds ih =>
    intro st
    have hcd : create_document st "quizquestion" d =
        (oidOfNat st.nextId,
         { st with quizquestion := st.quizquestion ++ [("_id", BVal.oid (oidOfNat st.nextId)) :: d],
                   nextId := st.nextId + 1 }) := rfl
    simp only [insertLoop, hcd, ih]
    simp only [idsFrom, tagFrom, List.length_cons, Prod.mk.injEq, Store.mk.injEq]
    refine ⟨trivial, trivial, by simp [List.append_assoc], by omega⟩

theorem idsFrom_length (n len : Nat) : (idsFrom n len).length = len := by
  induction len generalizing n with
  | zero => rfl
  | succ m ih => simp [idsFrom, ih]

theorem tagFrom_length (n : Nat) (ds : List Doc) : (tagFrom n ds).length = ds.length := by
  induction ds generalizing n with
  | nil => rfl
  | cons d ds ih => simp [tagFrom, ih]

theorem findOne_eq_none (docs : List Doc) (f : List (String × BVal))
    (h : ∀ d ∈ docs, matchesFilter d f = false) : findOne docs f = none := by
  unfold findOne
  exact List.find?_eq_none.mpr fun d hd => by simp [h d hd]

theorem matchesFilter_single (d : Doc) (k : String) (v : BVal) :
    matchesFilter d [(k, v)] = (d.lookup k == some v) := by
  simp [matchesFilter]

theorem numKey_to_str_id (d : Doc) : numKey (to_str_id d) = numKey d := by
  unfold numKey
  rw [lookup_to_str_id d "number" (by decide) (by decide)]

end BioBackend

namespace BioBackend

/-- Claim C5: for every string that is not a well-formed store identifier,
`GET /api/chapters/{chapter_id}` responds 400 (never 404 or 500), whatever
the store holds and even when the store is unavailable. -/
theorem get_chapter_malformed_id (db : Option Store) (chapter_id : String)
    (h : isValidObjectId chapter_id = false) :
    get_chapter db chapter_id = .error (400, "Invalid chapter id") := by
  cases db with
  | none => rfl
  | some st => simp [get_chapter, h]

/-- Witness for C5 at the malformed identifier "zzz". -/
theorem get_chapter_malformed_id_witness :
    isValidObjectId "zzz" = false ∧
    get_chapter (some emptyStore) "zzz" = .error (400, "Invalid chapter id") :=
  ⟨by decide, get_chapter_malformed_id (some emptyStore) "zzz" (by decide)⟩

/-- Claim C6: for every well-formed identifier matching no stored chapter,
`GET /api/chapters/{chapter_id}` responds 404. -/
theorem get_chapter_not_found (st : Store) (chapter_id : String)
    (hv : isValidObjectId chapter_id = true)
    (habs : ∀ d ∈ st.chapter, d.lookup "_id" ≠ some (BVal.oid (lowerHex chapter_id))) :
    get_chapter (some st) chapter_id = .error (404, "Chapter not found") := by
  have hnone : findOne st.chapter [("_id", BVal.oid (lowerHex chapter_id))] = none := by
    refine findOne_eq_none _ _ fun d hd => ?_
    rw [matchesFilter_single]
    exact beq_eq_false_iff_ne.mpr (habs d hd)
  simp [get_chapter, hv, hnone]

/-- Witness for C6: a valid identifier absent from a nonempty store. -/
theorem get_chapter_not_found_witness :
    isValidObjectId fixOid = true ∧
    (∀ d ∈ wStoreOther.chapter, d.lookup "_id" ≠ some (BVal.oid (lowerHex fixOid))) ∧
    get_chapter (some wStoreOther) fixOid = .error (404, "Chapter not found") :=
  ⟨by decide, by decide,
   get_chapter_not_found wStoreOther fixOid (by decide) (by decide)⟩

/-- Claim C4: `POST /api/chapters/{chapter_id}/quizzes` with matching,
well-formed path/body identifiers naming an absent chapter responds 404 and
leaves the store unchanged (zero documents inserted into `quizquestion`). -/
theorem add_quiz_questions_absent_chapter (st : Store) (chapter_id : String)
    (payload : QuizCreate)
    (hmatch : chapter_id = payload.chapter_id)
    (hv : isValidObjectId chapter_id = true)
    (habs : ∀ d ∈ st.chapter, d.lookup "_id" ≠ some (BVal.oid (lowerHex chapter_id))) :
    add_quiz_questions (some st) chapter_id payload
      = (.error (404, "Chapter not found"), some st) := by
  subst hmatch
  have hnone : findOne st.chapter [("_id", BVal.oid (lowerHex payload.chapter_id))] = none := by
    refine findOne_eq_none _ _ fun d hd => ?_
    rw [matchesFilter_single]
    exact beq_eq_false_iff_ne.mpr (habs d hd)
  simp [add_quiz_questions, hv, hnone]

/-- Witness for C4: a well-formed payload for an absent chapter; the result
is 404 and the returned store is exactly the starting store. -/
theorem add_quiz_questions_absent_chapter_witness :
    fixOid = (QuizCreate.mk fixOid [wQuiz]).chapter_id ∧
    isValidObjectId fixOid = true ∧
    (∀ d ∈ wStoreOther.chapter, d.lookup "_id" ≠ some (BVal.oid (lowerHex fixOid))) ∧
    add_quiz_questions (some wStoreOther) fixOid (QuizCreate.mk fixOid [wQuiz])
      = (.error (404, "Chapter not found"), some wStoreOther) :=
  ⟨rfl, by decide, by decide,
   add_quiz_questions_absent_chapter wStoreOther fixOid (QuizCreate.mk fixOid [wQuiz])
     rfl (by decide) (by decide)⟩

/-- Claim C3, counterexample: with the store unavailable and a well-formed
identifier, `GET /api/chapters/{chapter_id}` answers 400, not the 500 the
claim asserts (the catch-all `except` turns the store failure into the
invalid-identifier response). -/
theorem get_chapter_unavailable_gives_400 :
    isValidObjectId fixOid = true ∧
    statusOf (get_chapter none fixOid) = 400 ∧
    ¬ statusOf (get_chapter none fixOid) = 500 := by
  refine ⟨by decide, rfl, by decide⟩

/-- Claim C3 (amended): with the store unavailable, `POST /api/seed/sample`
responds 500, while `GET /api/chapters/{chapter_id}` responds 400 for every
path identifier, well-formed or not. -/
theorem store_unavailable_statuses :
    seed_sample none = .error (500, "Database not available") ∧
    ∀ chapter_id, get_chapter none chapter_id = .error (400, "Invalid chapter id") :=
  ⟨rfl, fun _ => rfl⟩

/-- Claim C8, counterexample: on a document that already carries an `id`
field next to `_id`, `to_str_id` overwrites that pre-existing `id` value —
a field other than the identifier is modified. -/
theorem to_str_id_overwrites_existing_id :
    to_str_id [("_id", BVal.oid "abc"), ("id", BVal.s "keep"), ("x", BVal.i 7)]
      = [("id", BVal.s "abc"), ("x", BVal.i 7)] ∧
    ¬ (to_str_id [("_id", BVal.oid "abc"), ("id", BVal.s "keep"), ("x", BVal.i 7)]).lookup "id"
        = some (BVal.s "keep") := by
  decide

/-- Claim C8 (amended): on every document that does not already carry an
`id` field — true of every document this system stores — `to_str_id` moves
`_id` to `id` as its string form (leaving `id` untouched when `_id` is
absent), drops `_id`, and leaves the value of every other field unchanged. -/
theorem to_str_id_renames_id (d : Doc) (h : d.lookup "id" = none) :
    (to_str_id d).lookup "id" = ((d.lookup "_id").map fun v => BVal.s (valToStr v)) ∧
    (to_str_id d).lookup "_id" = none ∧
    ∀ k, k ≠ "_id" → k ≠ "id" → (to_str_id d).lookup k = d.lookup k :=
  ⟨to_str_id_lookup_id d h, to_str_id_lookup_underscore d,
   fun k h1 h2 => lookup_to_str_id d k h1 h2⟩

/-- Witness for C8 at a concrete document without an `id` field. -/
theorem to_str_id_renames_id_witness :
    ([("_id", BVal.oid "abc"), ("x", BVal.i 7)] : Doc).lookup "id" = none ∧
    ((to_str_id [("_id", BVal.oid "abc"), ("x", BVal.i 7)]).lookup "id"
        = ((([("_id", BVal.oid "abc"), ("x", BVal.i 7)] : Doc).lookup "_id").map
            fun v => BVal.s (valToStr v)) ∧
      (to_str_id [("_id", BVal.oid "abc"), ("x", BVal.i 7)]).lookup "_id" = none ∧
      ∀ k, k ≠ "_id" → k ≠ "id" →
        (to_str_id [("_id", BVal.oid "abc"), ("x", BVal.i 7)]).lookup k
          = ([("_id", BVal.oid "abc"), ("x", BVal.i 7)] : Doc).lookup k) :=
  ⟨by decide, to_str_id_renames_id [("_id", BVal.oid "abc"), ("x", BVal.i 7)] (by decide)⟩

/-- Claim C9: quiz-question validation accepts a fully-present payload
exactly when `options` has at least 2 entries and `correct_index` is
nonnegative — no cross-field bound of `correct_index` against the length of
`options`; concretely, `correct_index = 5` with 2 options passes. -/
theorem validateQuizQuestion_characterization :
    (∀ (c q : String) (os : List String) (ci : Int) (ex : String) (diff : Option String),
      (validateQuizQuestion (some c) (some q) (some os) (some ci) (some ex) diff).isSome
        = (decide (2 ≤ os.length) && decide (0 ≤ ci))) ∧
    validateQuizQuestion (some "c") (some "q") (some ["a", "b"]) (some 5) (some "e") none
      = some ⟨"c", "q", ["a", "b"], 5, "e", "OSN-N"⟩ ∧
    (∀ (c q : String) (o : String) (ci : Int) (ex : String) (diff : Option String),
      validateQuizQuestion (some c) (some q) (some [o]) (some ci) (some ex) diff = none) := by
  refine ⟨fun c q os ci ex diff => ?_, by decide, fun c q o ci ex diff => ?_⟩
  · unfold validateQuizQuestion
    by_cases h1 : 2 ≤ os.length
    · by_cases h2 : 0 ≤ ci
      · simp [h1, h2]
      · simp [h1, h2]
    · simp [h1]
  · unfold validateQuizQuestion
    simp

end BioBackend

namespace BioBackend

theorem get_documents_chapter_all (st : Store) :
    get_documents st "chapter" [] none = st.chapter := by
  show st.chapter.filter (fun d => matchesFilter d []) = st.chapter
  have hfun : (fun d : Doc => matchesFilter d []) = fun _ => true := rfl
  rw [hfun, List.filter_true]

theorem list_chapters_eq (st : Store) :
    list_chapters st
      = (st.chapter.mergeSort fun a b => numKey a ≤ numKey b).map to_str_id := by
  unfold list_chapters
  rw [get_documents_chapter_all]

theorem list_chapters_key_sorted (st : Store) :
    (list_chapters st).Pairwise fun a b => numKey a ≤ numKey b := by
  rw [list_chapters_eq]
  have hs := @List.sorted_mergeSort Doc
    (fun a b : Doc => decide (numKey a ≤ numKey b))
    (fun a b c hab hbc => by
      simp only [decide_eq_true_eq] at *
      omega)
    (fun a b => by
      simp only [Bool.or_eq_true, decide_eq_true_eq]
      omega)
    st.chapter
  refine List.Pairwise.map _ (fun a b hab => ?_) hs
  simp only [decide_eq_true_eq] at hab
  rw [numKey_to_str_id, numKey_to_str_id]
  exact hab

theorem numKey_of_missing (d : Doc) (h : d.lookup "number" = none) : numKey d = 0 := by
  simp [numKey, h]

end BioBackend

namespace BioBackend

/-- Claim C7: for every store whose chapter documents carry integer (or no)
`number` fields — the only shapes this system can store — `GET /api/chapters`
returns the documents ordered non-decreasing by their `number` key,
regardless of the stored order. -/
theorem list_chapters_sorted (st : Store)
    (h : ∀ d ∈ st.chapter, numberIntOrMissing d = true) :
    (list_chapters st).Pairwise fun a b => numKey a ≤ numKey b :=
  list_chapters_key_sorted st

/-- Witness for C7 on a store holding chapters out of order. -/
theorem list_chapters_sorted_witness :
    (∀ d ∈ wStoreChapters.chapter, numberIntOrMissing d = true) ∧
    (list_chapters wStoreChapters).Pairwise fun a b => numKey a ≤ numKey b :=
  ⟨by decide, list_chapters_sorted wStoreChapters (by decide)⟩

/-- Claim C10: listing chapters drops no document, orders a document lacking
a `number` field as if its number were 0, and never places a
positive-`number` chapter before a `number`-less one. -/
theorem list_chapters_missing_number_first (st : Store)
    (h : ∀ d ∈ st.chapter, numberIntOrMissing d = true) :
    (list_chapters st).length = st.chapter.length ∧
    (∀ d ∈ list_chapters st, d.lookup "number" = none → numKey d = 0) ∧
    (list_chapters st).Pairwise fun a b =>
      ¬ (0 < numKey a ∧ b.lookup "number" = none) := by
  refine ⟨?_, ?_, ?_⟩
  · rw [list_chapters_eq, List.length_map]
    exact (List.mergeSort_perm st.chapter _).length_eq
  · intro d _ hnone
    exact numKey_of_missing d hnone
  · refine (list_chapters_key_sorted st).imp ?_
    intro a b hab hcontra
    obtain ⟨hpos, hmiss⟩ := hcontra
    have hb : numKey b = 0 := numKey_of_missing b hmiss
    omega

/-- Witness for C10 on a store with one `number`-less chapter. -/
theorem list_chapters_missing_number_first_witness :
    (∀ d ∈ wStoreChapters.chapter, numberIntOrMissing d = true) ∧
    ((list_chapters wStoreChapters).length = wStoreChapters.chapter.length ∧
     (∀ d ∈ list_chapters wStoreChapters, d.lookup "number" = none → numKey d = 0) ∧
     (list_chapters wStoreChapters).Pairwise fun a b =>
       ¬ (0 < numKey a ∧ b.lookup "number" = none)) :=
  ⟨by decide, list_chapters_missing_number_first wStoreChapters (by decide)⟩

end BioBackend

namespace BioBackend

theorem seedQuestions_length (cid : String) : (seedQuestions cid).length = 22 := rfl

theorem seedQuestions_all_chapter_id (cid : String) :
    ((seedQuestions cid).all fun d => d.lookup "chapter_id" == some (BVal.s cid)) = true := by
  simp [seedQuestions, List.lookup_cons]

theorem seed_core_eq (st : Store) (ch : Doc) (v : BVal) (e : Nat)
    (hid : ch.lookup "_id" = some v)
    (he : countDocs st.quizquestion [("chapter_id", BVal.s (valToStr v))] = e) :
    seed_core st ch = .ok
      ({ chapter_id := valToStr v, chapter_number := ch.lookup "number",
         chapter_title := ch.lookup "title", existing_questions := e,
         inserted := 20 - e, total_now := e + (20 - e) },
       { st with
         quizquestion :=
           st.quizquestion ++ tagFrom st.nextId ((seedQuestions (valToStr v)).take (20 - e)),
         nextId := st.nextId + (20 - e) }) := by
  unfold seed_core
  rw [hid]
  simp only [he]
  by_cases h20 : e < 20
  · rw [if_pos h20, if_pos (by omega : 0 < 20 - e)]
    rw [insertLoop_eq]
    have hlen : ((seedQuestions (valToStr v)).take (20 - e)).length = 20 - e := by
      rw [List.length_take, seedQuestions_length]
      omega
    rw [idsFrom_length, hlen]
  · rw [if_neg h20]
    have h0 : 20 - e = 0 := by omega
    rw [h0]
    simp [tagFrom]

end BioBackend

namespace BioBackend

/-- Claim C1, counterexample: the embedded candidate-question list holds 22
entries, not the 20 the claim asserts (only its first 20 can ever be taken,
since at most `20 - existing` are inserted). -/
theorem seed_candidate_list_not_twenty :
    (seedQuestions "0123456789abcdef01234567").length = 22 ∧
    ¬ (seedQuestions "0123456789abcdef01234567").length = 20 := by
  constructor
  · rfl
  · intro h
    simp [seedQuestions_length] at h

/-- Claim C1 (amended: the candidate list has 22 entries, not 20): when a
chapter with `number = 1` exists carrying identifier `v` and exactly `e`
stored questions reference `valToStr v`, the seed call reports
`existing_questions = e`, `inserted = max(0, 20 - e)` (Nat subtraction),
`total_now = e + inserted`, leaves the chapter collection unchanged, and
appends exactly the first `20 - e` candidates, each tagged with the
chapter's identifier and a fresh store identifier. -/
theorem seed_sample_topup (st : Store) (ch : Doc) (v : BVal) (e : Nat)
    (hch : findOne st.chapter [("number", BVal.i 1)] = some ch)
    (hid : ch.lookup "_id" = some v)
    (he : countDocs st.quizquestion [("chapter_id", BVal.s (valToStr v))] = e) :
    (seed_sample (some st) = .ok
      ({ chapter_id := valToStr v, chapter_number := ch.lookup "number",
         chapter_title := ch.lookup "title", existing_questions := e,
         inserted := 20 - e, total_now := e + (20 - e) },
       { st with
         quizquestion :=
           st.quizquestion ++ tagFrom st.nextId ((seedQuestions (valToStr v)).take (20 - e)),
         nextId := st.nextId + (20 - e) })) ∧
    (seedQuestions (valToStr v)).length = 22 ∧
    ((seedQuestions (valToStr v)).all fun d =>
      d.lookup "chapter_id" == some (BVal.s (valToStr v))) = true ∧
    (tagFrom st.nextId ((seedQuestions (valToStr v)).take (20 - e))).length = 20 - e := by
  refine ⟨?_, seedQuestions_length _, seedQuestions_all_chapter_id _, ?_⟩
  · unfold seed_sample
    simp only [hch]
    exact seed_core_eq st ch v e hid he
  · rw [tagFrom_length, List.length_take, seedQuestions_length]
    omega

/-- Witness for C1 at `e = 5`: a store holding the sample chapter and 5
questions referencing it; the seed call inserts 15 and reports a total of
20. -/
theorem seed_sample_topup_witness :
    findOne wStoreFive.chapter [("number", BVal.i 1)] = some wChapterDoc ∧
    wChapterDoc.lookup "_id" = some (BVal.oid fixOid) ∧
    countDocs wStoreFive.quizquestion
      [("chapter_id", BVal.s (valToStr (BVal.oid fixOid)))] = 5 ∧
    ((seed_sample (some wStoreFive) = .ok
      ({ chapter_id := valToStr (BVal.oid fixOid),
         chapter_number := wChapterDoc.lookup "number",
         chapter_title := wChapterDoc.lookup "title", existing_questions := 5,
         inserted := 20 - 5, total_now := 5 + (20 - 5) },
       { wStoreFive with
         quizquestion :=
           wStoreFive.quizquestion ++
             tagFrom wStoreFive.nextId
               ((seedQuestions (valToStr (BVal.oid fixOid))).take (20 - 5)),
         nextId := wStoreFive.nextId + (20 - 5) })) ∧
     (seedQuestions (valToStr (BVal.oid fixOid))).length = 22 ∧
     ((seedQuestions (valToStr (BVal.oid fixOid))).all fun d =>
       d.lookup "chapter_id" == some (BVal.s (valToStr (BVal.oid fixOid)))) = true ∧
     (tagFrom wStoreFive.nextId
       ((seedQuestions (valToStr (BVal.oid fixOid))).take (20 - 5))).length = 20 - 5) :=
  ⟨by decide, by decide, by decide,
   seed_sample_topup wStoreFive wChapterDoc (BVal.oid fixOid) 5
     (by decide) (by decide) (by decide)⟩

end BioBackend

namespace BioBackend

set_option maxRecDepth 8000 in
/-- Claim C2: from the empty store, one seed call inserts exactly one
chapter (with `number = 1`) and exactly 20 questions, all referencing that
chapter's identifier; a second call inserts nothing — it returns the very
same store — and reports `existing_questions = 20`, `inserted = 0`:
sequential seeding is idempotent after the first call. -/
theorem seed_idempotent_from_empty :
    seed_sample (some emptyStore) = .ok (seededResp, seededStore) ∧
    seededStore.chapter.length = 1 ∧
    (seededStore.chapter.all fun d => d.lookup "number" == some (BVal.i 1)) = true ∧
    seededStore.quizquestion.length = 20 ∧
    (seededStore.quizquestion.all fun q =>
       q.lookup "chapter_id" == some (BVal.s seededResp.chapter_id)) = true ∧
    seededResp.existing_questions = 0 ∧ seededResp.inserted = 20 ∧ seededResp.total_now = 20 ∧
    seed_sample (some seededStore)
      = .ok ({ seededResp with existing_questions := 20, inserted := 0, total_now := 20 },
             seededStore) := by
  refine ⟨?_, ?_, ?_, ?_, ?_, ?_, ?_, ?_, ?_⟩ <;> decide

end BioBackend
